import Mathlib

/-!
Shallow embedding of the shoesmanager inventory core:
`src/app/models.py` (InventoryItem), `src/app/schemas.py` (pydantic
schemas and validators), `src/app/repository.py` (InventoryRepository)
and `src/app/services/import_service.py` (CSVImportService).

Modelling conventions:
* calendar dates are encoded as `Nat` in the form `y*10000 + m*100 + d`
  (so numeric order coincides with calendar order for valid dates);
* `Decimal` prices with two fractional digits are encoded as `Int`
  cents (value scaled by 100);
* SQL `LIKE '%t%'` with the default SQLite collation is modelled as an
  ASCII-case-insensitive substring test; `NULL LIKE p` is false;
* Python truthiness on optional values is modelled explicitly: a date
  object is always truthy, a string is truthy iff non-empty, a Decimal
  is truthy iff non-zero;
* raising an exception is modelled as `Except.error`.
-/

namespace ShoesManager

/-- ASCII lowercase of a string (Python `str.lower` restricted to the
ASCII range, which is also how the default SQLite `LIKE` folds case). -/
def asciiLower (s : String) : String := String.mk (s.toList.map Char.toLower)

/-- Unicode whitespace test covering the characters Python `str.strip`
removes in this data (space, tab, newline, carriage return, form feed,
vertical tab). -/
def isPySpace (c : Char) : Bool :=
  c == ' ' || c == '\t' || c == '\n' || c == '\r' ||
  c == Char.ofNat 11 || c == Char.ofNat 12

/-- Python `str.strip()`: drop leading and trailing whitespace. -/
def pyStrip (s : String) : String :=
  String.mk (((s.toList.dropWhile isPySpace).reverse.dropWhile isPySpace).reverse)

/-- `containsSub n h` holds iff `n` occurs as a contiguous substring of
`h` (the semantics of SQL `LIKE` with pattern `%n%`, before case
folding). -/
def containsSub (n h : String) : Bool :=
  (h.toList.tails).any (fun t => n.toList.isPrefixOf t)

/-- SQL `col LIKE '%pat%'` under the default (ASCII case-insensitive)
collation. -/
def like (pat s : String) : Bool :=
  containsSub (asciiLower pat) (asciiLower s)

/-- `col LIKE '%pat%'` on a nullable column: `NULL LIKE p` is not true. -/
def likeOpt (pat : String) (s : Option String) : Bool :=
  match s with
  | none => false
  | some v => like pat v

/-- `NULL >= x` is not true in SQL; on a present date it is `x <= d`. -/
def optDateGe (d : Option Nat) (lo : Nat) : Bool :=
  match d with
  | none => false
  | some v => lo ≤ v

/-- `NULL <= x` is not true in SQL; on a present date it is `d <= x`. -/
def optDateLe (d : Option Nat) (hi : Nat) : Bool :=
  match d with
  | none => false
  | some v => v ≤ hi

/-- Python truthiness of an optional string filter value: the filter is
applied iff the value is present and non-empty (`if query.field:`). -/
def strFilterActive (s : Option String) : Bool :=
  match s with
  | none => false
  | some v => v ≠ ""

/-- Python truthiness of an optional `Decimal`: `Decimal(0)` is falsy. -/
def decTruthy (x : Option Int) : Bool :=
  match x with
  | none => false
  | some v => v ≠ 0

/--
One row of the `inventory_items` table (`src/app/models.py`,
`InventoryItem`).  The `barcode` column is referenced throughout
`src/app/repository.py` (e.g. lines 246-247, 453-454, 500-502) and by
every front-end, but its `Column` declaration is absent from the copy of
`models.py` in `src/`; the field is modelled from the spec, section 3:
free-text, optional, not unique at the item level.
-/
structure InventoryItem where
  id : String
  location : String
  purchase_date : Nat
  sale_date : Option Nat
  model_name : String
  name : String
  size : Option String
  vendor : String
  price : Int
  notes : Option String
  barcode : Option String
  created_at : Nat
  updated_at : Nat
deriving Repr, DecidableEq

/-- Sort keys accepted by `SearchQuery.sort_by` (the `Literal` whitelist
in `src/app/schemas.py` lines 121-123). -/
inductive SortKey where
  | id | location | purchase_date | sale_date | model_name
  | name | size | vendor | price | created_at
deriving Repr, DecidableEq

/--
`SearchQuery` (`src/app/schemas.py` lines 97-143).  The `barcode` filter
field is read by `InventoryRepository.search` (`repository.py` lines
246-247) and passed by the CLI/GUI/web adapters, but its `Field`
declaration is absent from the copy of `schemas.py` in `src/`; it is
modelled from the spec, section 4.2 (a substring filter dimension).
-/
structure SearchQuery where
  keyword : Option String := none
  location : Option String := none
  model_name : Option String := none
  name : Option String := none
  vendor : Option String := none
  size : Option String := none
  barcode : Option String := none
  purchase_date_from : Option Nat := none
  purchase_date_to : Option Nat := none
  sale_date_from : Option Nat := none
  sale_date_to : Option Nat := none
  price_min : Option Int := none
  price_max : Option Int := none
  sort_by : SortKey := SortKey.created_at
  sort_desc : Bool := true
  limit : Nat := 100
  offset : Nat := 0
deriving Repr, DecidableEq

/-- Error message raised when `price_min > price_max`
(`schemas.py` line 141). -/
def priceRangeMsg : String := "최소 가격은 최대 가격보다 클 수 없습니다."

/-- Error message raised when the purchase-date range is inverted
(`schemas.py` line 133). -/
def purchaseRangeMsg : String := "구매일 시작일은 종료일보다 늦을 수 없습니다."

/-- Error message raised when the sale-date range is inverted
(`schemas.py` line 137). -/
def saleRangeMsg : String := "판매일 시작일은 종료일보다 늦을 수 없습니다."

/-- An optional non-negative bound (`Field(..., ge=0)`). -/
def optGeZero (x : Option Int) : Bool :=
  match x with
  | none => true
  | some v => 0 ≤ v

/-- Both endpoints present with the lower strictly above the upper. -/
def rangeInvertedNat (lo hi : Option Nat) : Bool :=
  match lo, hi with
  | some a, some b => b < a
  | _, _ => false

/-- Both endpoints present with the lower strictly above the upper. -/
def rangeInvertedInt (lo hi : Option Int) : Bool :=
  match lo, hi with
  | some a, some b => b < a
  | _, _ => false

/--
Validation performed when a `SearchQuery` is constructed: the pydantic
`Field` constraints (`price_min >= 0`, `price_max >= 0`,
`1 <= limit <= 10000`) followed by the `validate_date_ranges` model
validator (`schemas.py` lines 128-143).  Note the model validator tests
the price bounds with Python truthiness (`if self.price_min and
self.price_max and ...`), so a zero bound disables the min/max
comparison; date objects are always truthy, so the date-range checks
only need presence.
-/
def validateSearchQuery (q : SearchQuery) : Except String SearchQuery :=
  if ¬ optGeZero q.price_min then
    .error "price_min: Input should be greater than or equal to 0"
  else if ¬ optGeZero q.price_max then
    .error "price_max: Input should be greater than or equal to 0"
  else if ¬ (1 ≤ q.limit ∧ q.limit ≤ 10000) then
    .error "limit: out of range"
  else if rangeInvertedNat q.purchase_date_from q.purchase_date_to then
    .error purchaseRangeMsg
  else if rangeInvertedNat q.sale_date_from q.sale_date_to then
    .error saleRangeMsg
  else if decTruthy q.price_min && decTruthy q.price_max &&
          rangeInvertedInt q.price_min q.price_max then
    .error priceRangeMsg
  else
    .ok q

/--
The conjunction of filter conditions built by
`InventoryRepository.search` (`repository.py` lines 217-271).  Each
component is guarded exactly as in the source (`if query.field:` for
strings and dates, `is not None` for the price bounds); the keyword
filter is the disjunction over `name`, `model_name`, `vendor`, `notes`
built at lines 220-228.
-/
def matchesQuery (q : SearchQuery) (it : InventoryItem) : Bool :=
  (if strFilterActive q.keyword then
     (let k := q.keyword.getD ""
      like k it.name || like k it.model_name || like k it.vendor || likeOpt k it.notes)
   else true) &&
  (if strFilterActive q.location then like (q.location.getD "") it.location else true) &&
  (if strFilterActive q.model_name then like (q.model_name.getD "") it.model_name else true) &&
  (if strFilterActive q.name then like (q.name.getD "") it.name else true) &&
  (if strFilterActive q.vendor then like (q.vendor.getD "") it.vendor else true) &&
  (if strFilterActive q.size then likeOpt (q.size.getD "") it.size else true) &&
  (if strFilterActive q.barcode then likeOpt (q.barcode.getD "") it.barcode else true) &&
  (match q.purchase_date_from with | none => true | some lo => lo ≤ it.purchase_date) &&
  (match q.purchase_date_to with | none => true | some hi => it.purchase_date ≤ hi) &&
  (match q.sale_date_from with | none => true | some lo => optDateGe it.sale_date lo) &&
  (match q.sale_date_to with | none => true | some hi => optDateLe it.sale_date hi) &&
  (match q.price_min with | none => true | some lo => lo ≤ it.price) &&
  (match q.price_max with | none => true | some hi => it.price ≤ hi)

/-- Ordering on an optional column (SQL `NULL` sorts before any value). -/
def optNatLe (a b : Option Nat) : Bool :=
  match a, b with
  | none, _ => true
  | some _, none => false
  | some x, some y => x ≤ y

/-- Ordering on an optional string column. -/
def optStrLe (a b : Option String) : Bool :=
  match a, b with
  | none, _ => true
  | some _, none => false
  | some x, some y => x ≤ y

/-- Ascending comparison for the selected sort column
(`repository.py` lines 277-281). -/
def sortFieldLe (k : SortKey) (a b : InventoryItem) : Bool :=
  match k with
  | SortKey.id => a.id ≤ b.id
  | SortKey.location => a.location ≤ b.location
  | SortKey.purchase_date => a.purchase_date ≤ b.purchase_date
  | SortKey.sale_date => optNatLe a.sale_date b.sale_date
  | SortKey.model_name => a.model_name ≤ b.model_name
  | SortKey.name => a.name ≤ b.name
  | SortKey.size => optStrLe a.size b.size
  | SortKey.vendor => a.vendor ≤ b.vendor
  | SortKey.price => a.price ≤ b.price
  | SortKey.created_at => a.created_at ≤ b.created_at

/-- Insert into a list sorted by the boolean relation `le`. -/
def insertLe {α : Type} (le : α → α → Bool) (x : α) : List α → List α
  | [] => [x]
  | y :: ys => if le x y then x :: y :: ys else y :: insertLe le x ys

/-- Insertion sort by a boolean relation (models `ORDER BY`). -/
def sortLe {α : Type} (le : α → α → Bool) : List α → List α
  | [] => []
  | x :: xs => insertLe le x (sortLe le xs)

theorem length_insertLe {α : Type} (le : α → α → Bool) (x : α) (l : List α) :
    (insertLe le x l).length = l.length + 1 := by
  induction l with
  | nil => rfl
  | cons y ys ih =>
    simp only [insertLe]
    by_cases h : le x y = true
    · simp [h]
    · simp [h, ih]

theorem length_sortLe {α : Type} (le : α → α → Bool) (l : List α) :
    (sortLe le l).length = l.length := by
  induction l with
  | nil => rfl
  | cons x xs ih => simp [sortLe, length_insertLe, ih]

/-- `SearchResult` (`src/app/schemas.py` lines 146-153). -/
structure SearchResult where
  items : List InventoryItem
  total_count : Nat
  limit : Nat
  offset : Nat
  has_more : Bool
deriving Repr, DecidableEq

/--
`InventoryRepository.search` (`repository.py` lines 202-300): apply the
conjunction of active filters, count the matching rows before
pagination, order by the selected column, apply `OFFSET`/`LIMIT`, and
report `has_more = offset + len(items) < total_count` (line 292).
-/
def search (store : List InventoryItem) (q : SearchQuery) : SearchResult :=
  let filtered := store.filter (fun it => matchesQuery q it)
  let total := filtered.length
  let sorted :=
    if q.sort_desc then sortLe (fun a b => sortFieldLe q.sort_by b a) filtered
    else sortLe (fun a b => sortFieldLe q.sort_by a b) filtered
  let items := (sorted.drop q.offset).take q.limit
  { items := items
    total_count := total
    limit := q.limit
    offset := q.offset
    has_more := decide (q.offset + items.length < total) }

/-- `InventoryRepository.get_by_id` (`repository.py` lines 63-80):
`first()` row whose primary key matches. -/
def findItem (store : List InventoryItem) (id : String) : Option InventoryItem :=
  store.find? (fun it => it.id == id)

/-- Replace the first row with the given id (the ORM mutates the object
returned by `get_by_id` in place). -/
def replaceItem : List InventoryItem → String → InventoryItem → List InventoryItem
  | [], _, _ => []
  | x :: xs, id, new =>
    if x.id == id then new :: xs else x :: replaceItem xs id new

/-- Message raised by `InventoryItem.validate_dates`
(`models.py` line 72) when a sale date precedes the purchase date. -/
def dateOrderMsg : String := "판매일은 구매일보다 늦어야 합니다."

/--
`InventoryRepository.sell_item` (`repository.py` lines 509-539): `False`
if the id has no row or the row already has a sale date; otherwise the
assignment `db_item.sale_date = sale_date` runs the SQLAlchemy
`validate_dates` hook (`models.py` lines 67-73), which raises a
`ValueError` when the new sale date precedes the stored purchase date;
on success the row is flushed with the new sale date and a refreshed
`updated_at` (the `onupdate=func.now()` column default, modelled by the
explicit `now` argument).
-/
def sell_item (store : List InventoryItem) (id : String) (saleDate now : Nat) :
    Except String (Bool × List InventoryItem) :=
  match findItem store id with
  | none => .ok (false, store)
  | some it =>
    if it.sale_date.isSome then
      .ok (false, store)
    else if saleDate < it.purchase_date then
      .error dateOrderMsg
    else
      .ok (true, replaceItem store id
        { it with sale_date := some saleDate, updated_at := now })

/--
`InventoryItemUpdate` (`schemas.py` lines 56-83): a partial update; a
`none` field is unset (excluded by `dict(exclude_unset=True)`).
-/
structure InventoryItemUpdate where
  location : Option String := none
  purchase_date : Option Nat := none
  sale_date : Option Nat := none
  model_name : Option String := none
  name : Option String := none
  size : Option String := none
  vendor : Option String := none
  price : Option Int := none
  notes : Option String := none
deriving Repr, DecidableEq

/-- Message raised by the blank-check validators on required string
fields (`schemas.py` line 32 / line 74). -/
def blankFieldMsg : String := "필수 필드는 공백일 수 없습니다."

/-- Message raised by `InventoryItem.validate_price`
(`models.py` line 64). -/
def negativePriceMsg : String := "가격은 0 이상이어야 합니다."

/-- A set optional required-string field must be non-blank; the stored
value is stripped (`schemas.py` lines 69-75). -/
def validateOptRequiredStr (v : Option String) : Except String (Option String) :=
  match v with
  | none => .ok none
  | some s => if pyStrip s = "" then .error blankFieldMsg else .ok (some (pyStrip s))

/-- `validate_size` (`schemas.py` lines 77-83): strip, blank becomes
absent. -/
def normalizeSize (v : Option String) : Option String :=
  match v with
  | none => none
  | some s => if pyStrip s = "" then none else some (pyStrip s)

/--
Pydantic validation of an `InventoryItemUpdate` (`schemas.py` lines
56-83): set required-string fields must be non-blank after trimming and
are stored trimmed, `size` is normalized, and a set `price` must be
non-negative (`ge=0`).  There is no cross-field date validator on the
update schema.
-/
def validateItemUpdate (u : InventoryItemUpdate) : Except String InventoryItemUpdate := do
  let loc ← validateOptRequiredStr u.location
  let mn ← validateOptRequiredStr u.model_name
  let nm ← validateOptRequiredStr u.name
  let vd ← validateOptRequiredStr u.vendor
  match u.price with
  | some p => if p < 0 then throw "price: Input should be greater than or equal to 0" else pure ()
  | none => pure ()
  .ok { u with location := loc, model_name := mn, name := nm, vendor := vd,
               size := normalizeSize u.size }

/-- Assignment of a required string column, running the SQLAlchemy
`validate_required_fields` hook (`models.py` lines 75-80). -/
def modelSetRequiredStr (field v : String) : Except String String :=
  if pyStrip v = "" then .error (field ++ "는 필수 필드이며 공백일 수 없습니다.")
  else .ok (pyStrip v)

/--
`InventoryRepository.update` (`repository.py` lines 100-129): fetch the
row, then assign each set field in pydantic declaration order
(`location, purchase_date, sale_date, model_name, name, size, vendor,
price, notes`); each assignment runs the SQLAlchemy validators of
`models.py`:
* required strings must be non-blank and are stripped;
* assigning `purchase_date` is NOT validated against the stored
  `sale_date` (`validate_dates` only checks the `sale_date` key);
* assigning `sale_date` must not precede the stored `purchase_date`;
* assigning `price` must be non-negative;
* `size` is stripped, blank becomes absent.
On success the row is flushed with a refreshed `updated_at`.
`None` result means the id had no row (returned as a no-op).
-/
def updateItem (store : List InventoryItem) (id : String)
    (u : InventoryItemUpdate) (now : Nat) :
    Except String (Option InventoryItem × List InventoryItem) :=
  match findItem store id with
  | none => .ok (none, store)
  | some it0 => do
    let it1 ← match u.location with
      | none => pure it0
      | some v => do
        let v' ← modelSetRequiredStr "location" v
        pure { it0 with location := v' }
    let it2 := match u.purchase_date with
      | none => it1
      | some d => { it1 with purchase_date := d }
    let it3 ← match u.sale_date with
      | none => pure it2
      | some d =>
        if d < it2.purchase_date then throw dateOrderMsg
        else pure { it2 with sale_date := some d }
    let it4 ← match u.model_name with
      | none => pure it3
      | some v => do
        let v' ← modelSetRequiredStr "model_name" v
        pure { it3 with model_name := v' }
    let it5 ← match u.name with
      | none => pure it4
      | some v => do
        let v' ← modelSetRequiredStr "name" v
        pure { it4 with name := v' }
    let it6 := match u.size with
      | none => it5
      | some v => { it5 with size := if pyStrip v = "" then none else some (pyStrip v) }
    let it7 ← match u.vendor with
      | none => pure it6
      | some v => do
        let v' ← modelSetRequiredStr "vendor" v
        pure { it6 with vendor := v' }
    let it8 ← match u.price with
      | none => pure it7
      | some p =>
        if p < 0 then throw negativePriceMsg
        else pure { it7 with price := p }
    let it9 := match u.notes with
      | none => it8
      | some v => { it8 with notes := some v }
    let final := { it9 with updated_at := now }
    .ok (some final, replaceItem store id final)

/-- An item with a sale date never sold before it was bought
(spec section 3 invariant). -/
def dateInvariantOk (it : InventoryItem) : Bool :=
  match it.sale_date with
  | none => true
  | some sd => it.purchase_date ≤ sd

/--
One row of the barcode side table.  `Modelled from the spec:` the
`Barcode` ORM model is imported by `src/app/repository.py` (line 16)
and queried throughout it, but its class declaration is absent from the
copy of `src/app/models.py`; per spec section 3 a `BarcodeRecord` has
the unique key `barcode`, the cached `model_name` and `name`, and
timestamps.
-/
structure BarcodeRecord where
  barcode : String
  model_name : String
  name : String
  created_at : Nat
  updated_at : Nat
deriving Repr, DecidableEq

/-- Overwrite `model_name`/`name` of the first record with the given
barcode (the ORM mutates the `first()` row in place). -/
def replaceFirstBarcode : List BarcodeRecord → String → String → String → Nat →
    List BarcodeRecord
  | [], _, _, _, _ => []
  | r :: rs, b, mn, nm, now =>
    if r.barcode == b then
      { r with model_name := mn, name := nm, updated_at := now } :: rs
    else
      r :: replaceFirstBarcode rs b mn nm now

/--
`InventoryRepository.create_or_update_barcode` (`repository.py` lines
376-421): if a record with this barcode exists, overwrite its
`model_name`/`name` in place (refreshing the update timestamp);
otherwise append a new record.
-/
def create_or_update_barcode (bs : List BarcodeRecord)
    (b mn nm : String) (now : Nat) : List BarcodeRecord :=
  match bs.find? (fun r => r.barcode == b) with
  | some _ => replaceFirstBarcode bs b mn nm now
  | none => bs ++ [{ barcode := b, model_name := mn, name := nm,
                     created_at := now, updated_at := now }]

/-- `InventoryRepository.get_barcode_info` (`repository.py` lines
423-440): `first()` record with this barcode. -/
def get_barcode_info (bs : List BarcodeRecord) (b : String) : Option BarcodeRecord :=
  bs.find? (fun r => r.barcode == b)

/-- At most one record per barcode value. -/
def uniqueBarcodes (bs : List BarcodeRecord) : Prop :=
  (bs.map (fun r => r.barcode)).Nodup

/-- Number of days in a month (Gregorian, as `datetime.date` checks). -/
def daysInMonth (y m : Nat) : Nat :=
  if m = 2 then
    if y % 4 = 0 ∧ (y % 100 ≠ 0 ∨ y % 400 = 0) then 29 else 28
  else if m = 4 ∨ m = 6 ∨ m = 9 ∨ m = 11 then 30
  else 31

/-- A valid Gregorian calendar date (what `datetime.strptime` accepts). -/
def validYmd (y m d : Nat) : Bool :=
  1 ≤ y && y ≤ 9999 && 1 ≤ m && m ≤ 12 && 1 ≤ d && d ≤ daysInMonth y m

/-- Encode a date as `y*10000 + m*100 + d`. -/
def encodeDate (y m d : Nat) : Nat := y * 10000 + m * 100 + d

/-- Digits of a numeral, as a natural number. -/
def digitsToNat (cs : List Char) : Nat :=
  cs.foldl (fun acc c => acc * 10 + (c.toNat - 48)) 0

/-- Split a character list on a separator (Python `str.split(sep)`:
adjacent separators and boundary separators yield empty components). -/
def splitChar (sep : Char) : List Char → List (List Char)
  | [] => [[]]
  | c :: rest =>
    if c == sep then [] :: splitChar sep rest
    else
      match splitChar sep rest with
      | [] => [[c]]
      | g :: gs => (c :: g) :: gs

/-- Parse a character list as an unsigned decimal numeral of at most
`maxLen` digits. -/
def parseNatField (maxLen : Nat) (cs : List Char) : Option Nat :=
  if cs.length = 0 ∨ maxLen < cs.length then none
  else if cs.all Char.isDigit then some (digitsToNat cs) else none

/-- Split on a separator into exactly three numeric components with the
digit-width limits of `strptime` directives (`%Y` up to 4 digits,
`%m`/`%d` up to 2). -/
def splitThree (sep : Char) (widths : Nat × Nat × Nat) (s : String) :
    Option (Nat × Nat × Nat) :=
  match splitChar sep s.toList with
  | [a, b, c] => do
    let x ← parseNatField widths.1 a
    let y ← parseNatField widths.2.1 b
    let z ← parseNatField widths.2.2 c
    some (x, y, z)
  | _ => none

/-- One `strptime` attempt in year-month-day component order. -/
def parseDateYmd (sep : Char) (s : String) : Option Nat := do
  let (y, m, d) ← splitThree sep (4, 2, 2) s
  if validYmd y m d then some (encodeDate y m d) else none

/-- One `strptime` attempt in month-day-year component order
(`%m/%d/%Y`). -/
def parseDateMdy (s : String) : Option Nat := do
  let (m, d, y) ← splitThree '/' (2, 2, 4) s
  if validYmd y m d then some (encodeDate y m d) else none

/-- One `strptime` attempt in day-month-year component order
(`%d/%m/%Y`). -/
def parseDateDmy (s : String) : Option Nat := do
  let (d, m, y) ← splitThree '/' (2, 2, 4) s
  if validYmd y m d then some (encodeDate y m d) else none

/--
`_parse_field` date branch (`import_service.py` lines 260-267): the
formats `%Y-%m-%d`, `%Y/%m/%d`, `%m/%d/%Y`, `%d/%m/%Y` are tried in
order; the first that parses wins.
-/
def parseDateMulti (s : String) : Option Nat :=
  (parseDateYmd '-' s).orElse (fun _ =>
    (parseDateYmd '/' s).orElse (fun _ =>
      (parseDateMdy s).orElse (fun _ => parseDateDmy s)))

/--
`Decimal(clean_value)` restricted to plain decimal literals, returned
as integer cents: an optional sign, an integer part and at most two
fractional digits (a third fractional digit cannot be represented in
cents; in the source such a value is parsed by `Decimal` and then
rejected by the `decimal_places=2` constraint of the schema, so the row
fails either way).
-/
def parseDecimalCents (s : String) : Option Int :=
  let (neg, body) :=
    match s.toList with
    | '-' :: cs => (true, cs)
    | '+' :: cs => (false, cs)
    | cs => (false, cs)
  let mk : Nat → Option Int := fun n =>
    if neg then some (-(Int.ofNat n)) else some (Int.ofNat n)
  match splitChar '.' body with
  | [intPart] =>
    if intPart.length ≠ 0 ∧ intPart.all Char.isDigit then
      mk (digitsToNat intPart * 100)
    else none
  | [intPart, fracPart] =>
    if (intPart.length ≠ 0 ∨ fracPart.length ≠ 0) ∧
       intPart.all Char.isDigit ∧ fracPart.all Char.isDigit ∧
       fracPart.length ≤ 2 then
      let frac := digitsToNat fracPart *
        (if fracPart.length = 0 then 100 else if fracPart.length = 1 then 10 else 1)
      mk (digitsToNat intPart * 100 + frac)
    else none
  | _ => none

/-- `_parse_field` price branch (`import_service.py` lines 269-273):
strip thousands separators and currency marks, then parse as decimal. -/
def parsePrice (s : String) : Option Int :=
  parseDecimalCents (String.mk
    (s.toList.filter (fun c => c ≠ ',' ∧ c ≠ '₩' ∧ c ≠ '원')))

/-- `CSVImportService.COLUMN_MAPPING` (`import_service.py` lines
24-34), in source order. -/
def COLUMN_MAPPING : List (String × List String) :=
  [("location", ["location", "위치", "보관위치"]),
   ("purchase_date", ["purchase_date", "purchase date", "구매일", "구매날짜"]),
   ("sale_date", ["sale_date", "sale date", "판매일", "판매날짜"]),
   ("model_name", ["model_name", "model name", "model", "모델명", "모델"]),
   ("name", ["name", "product_name", "product name", "제품명", "이름", "상품명"]),
   ("size", ["size", "사이즈", "크기"]),
   ("vendor", ["vendor", "구매처", "공급업체", "supplier"]),
   ("price", ["price", "가격", "단가"]),
   ("notes", ["notes", "memo", "메모", "비고", "설명"])]

/-- The six canonical fields that must be bound by column mapping
(`import_service.py` line 196 and lines 233, 255). -/
def requiredColumns : List String :=
  ["location", "purchase_date", "model_name", "name", "vendor", "price"]

/-- Does a header cell match one of the accepted aliases
(`header.strip().lower()` against the lowercased alias list,
`import_service.py` line 191)? -/
def headerMatches (aliases : List String) (h : String) : Bool :=
  aliases.any (fun a => asciiLower (pyStrip h) == asciiLower a)

/-- Index of the first element satisfying `p` (the
`for i, header in enumerate(headers): ... break` loop of
`import_service.py` lines 190-193). -/
def firstIdxMatching (p : String → Bool) : List String → Option Nat
  | [] => none
  | h :: t => if p h then some 0 else (firstIdxMatching p t).map (fun i => i + 1)

/-- Index of the first header matching any alias of a field. -/
def findHeaderIndex (headers aliases : List String) : Option Nat :=
  firstIdxMatching (headerMatches aliases) headers

/-- The column binding built by `_map_columns`: one entry per canonical
field whose alias list matches some header, bound to the first such
header index, in `COLUMN_MAPPING` order. -/
def columnBinding (headers : List String) : List (String × Nat) :=
  COLUMN_MAPPING.filterMap (fun fa =>
    (findHeaderIndex headers fa.2).map (fun i => (fa.1, i)))

/-- The required canonical fields left unbound by the column binding
(`import_service.py` lines 196-197). -/
def unboundRequired (headers : List String) : List String :=
  requiredColumns.filter (fun c =>
    ¬ (columnBinding headers).any (fun fi => fi.1 == c))

/-- The `MissingColumnsError` message (`import_service.py` line 200). -/
def missingColumnsMsg (missing : List String) : String :=
  "필수 컬럼이 누락되었습니다: " ++ String.intercalate ", " missing

/--
`CSVImportService._map_columns` (`import_service.py` lines 177-202):
bind each canonical field to the first header matching any of its
aliases (case-insensitively); fail if any required canonical field is
unbound, listing every missing field.
-/
def mapColumns (headers : List String) : Except String (List (String × Nat)) :=
  if (unboundRequired headers).isEmpty then .ok (columnBinding headers)
  else .error (missingColumnsMsg (unboundRequired headers))

/-- The parsed (but not yet schema-validated) content of a row: one
entry per canonical field, absent until its bound column is parsed. -/
structure RawRow where
  location : Option String := none
  purchase_date : Option Nat := none
  sale_date : Option Nat := none
  model_name : Option String := none
  name : Option String := none
  size : Option String := none
  vendor : Option String := none
  price : Option Int := none
  notes : Option String := none
deriving Repr, DecidableEq

/-- `RequiredFieldError`-class message: a required field was empty
(`import_service.py` line 256). -/
def requiredEmptyMsg (field : String) : String :=
  "필수 필드 " ++ field ++ "는 비어있을 수 없습니다."

/-- A required field whose bound column lies beyond the end of the row
(`import_service.py` line 234). -/
def requiredMissingMsg (field : String) : String :=
  "필수 필드 " ++ field ++ "가 누락되었습니다."

/-- `DateFormatError`-class message (`import_service.py` line 267),
wrapped by the field-level handler of line 283. -/
def dateFormatMsg (field value : String) : String :=
  "필드 " ++ field ++ " 파싱 오류: 날짜 형식을 인식할 수 없습니다: " ++ value

/-- `PriceFormatError`-class message (`import_service.py` lines
282-283). -/
def priceFormatMsg (field value : String) : String :=
  "필드 " ++ field ++ " 파싱 오류: 잘못된 십진수 값: " ++ value

/--
`_parse_field` fused with the assignment `data[field] = ...` of
`_parse_row` (`import_service.py` lines 228-235 and 242-283): the cell
is stripped; an empty required cell fails, an empty optional cell
yields an absent value; dates and the price are parsed by the functions
above; string fields are stored stripped.
-/
def parseAssign (r : RawRow) (field cell : String) : Except String RawRow :=
  let v := pyStrip cell
  if v = "" then
    if requiredColumns.contains field then .error (requiredEmptyMsg field)
    else .ok r
  else if field = "purchase_date" then
    match parseDateMulti v with
    | some d => .ok { r with purchase_date := some d }
    | none => .error (dateFormatMsg field v)
  else if field = "sale_date" then
    match parseDateMulti v with
    | some d => .ok { r with sale_date := some d }
    | none => .error (dateFormatMsg field v)
  else if field = "price" then
    match parsePrice v with
    | some p => .ok { r with price := some p }
    | none => .error (priceFormatMsg field v)
  else if field = "location" then .ok { r with location := some (pyStrip v) }
  else if field = "model_name" then .ok { r with model_name := some (pyStrip v) }
  else if field = "name" then .ok { r with name := some (pyStrip v) }
  else if field = "size" then .ok { r with size := some (pyStrip v) }
  else if field = "vendor" then .ok { r with vendor := some (pyStrip v) }
  else if field = "notes" then .ok { r with notes := some (pyStrip v) }
  else .ok r

/-- Process one `(field, column)` binding entry against a row
(`import_service.py` lines 228-235). -/
def parseBindingEntry (row : List String) (r : RawRow) (fi : String × Nat) :
    Except String RawRow :=
  match row.get? fi.2 with
  | some cell => parseAssign r fi.1 cell
  | none =>
    if requiredColumns.contains fi.1 then .error (requiredMissingMsg fi.1)
    else .ok r

/-- `InventoryItemCreate` (`schemas.py` lines 14-53): the payload of a
create; no `barcode` alias exists in `COLUMN_MAPPING`, so imported rows
never carry one. -/
structure InventoryItemCreate where
  location : String
  purchase_date : Nat
  sale_date : Option Nat := none
  model_name : String
  name : String
  size : Option String := none
  vendor : String
  price : Int
  notes : Option String := none
deriving Repr, DecidableEq

/-- A required string field under its `Field` length constraints and
the blank-check validator (`schemas.py` lines 17-33): length within
`min_length..max_length` on the raw value, non-blank after trimming,
stored trimmed. -/
def validateRequiredStr (v : String) (maxLen : Nat) : Except String String :=
  if v.length = 0 then .error "String should have at least 1 character"
  else if maxLen < v.length then .error "String should have at most the allowed length"
  else if pyStrip v = "" then .error blankFieldMsg
  else .ok (pyStrip v)

/--
Pydantic validation of an `InventoryItemCreate` (`schemas.py` lines
14-48): required strings non-blank and within their length caps, `size`
normalized and capped at 20, `price >= 0`, and the `validate_dates`
model validator rejecting a sale date earlier than the purchase date.
-/
def validateItemCreate (c : InventoryItemCreate) :
    Except String InventoryItemCreate := do
  let loc ← validateRequiredStr c.location 50
  let mn ← validateRequiredStr c.model_name 100
  let nm ← validateRequiredStr c.name 100
  let vd ← validateRequiredStr c.vendor 100
  match c.size with
  | some s => if 20 < s.length then throw "size: String should have at most 20 characters" else pure ()
  | none => pure ()
  if c.price < 0 then throw "price: Input should be greater than or equal to 0" else pure ()
  let c' := { c with location := loc, model_name := mn, name := nm,
                     vendor := vd, size := normalizeSize c.size }
  match c'.sale_date with
  | some sd => if sd < c'.purchase_date then throw dateOrderMsg else pure ()
  | none => pure ()
  .ok c'

/-- Pydantic error for a required key absent from the parsed dict. -/
def fieldRequiredMsg (field : String) : String := field ++ ": Field required"

/-- Build the `InventoryItemCreate` from the parsed row and validate it
(`InventoryItemCreate(**data)`, `import_service.py` line 237). -/
def finalizeRow (r : RawRow) : Except String InventoryItemCreate :=
  match r.location with
  | none => .error (fieldRequiredMsg "location")
  | some loc =>
    match r.purchase_date with
    | none => .error (fieldRequiredMsg "purchase_date")
    | some pd =>
      match r.model_name with
      | none => .error (fieldRequiredMsg "model_name")
      | some mn =>
        match r.name with
        | none => .error (fieldRequiredMsg "name")
        | some nm =>
          match r.vendor with
          | none => .error (fieldRequiredMsg "vendor")
          | some vd =>
            match r.price with
            | none => .error (fieldRequiredMsg "price")
            | some p =>
              validateItemCreate
                { location := loc, purchase_date := pd, sale_date := r.sale_date,
                  model_name := mn, name := nm, size := r.size,
                  vendor := vd, price := p, notes := r.notes }

/-- The wrapper message of `_parse_row` (`import_service.py` line
240). -/
def rowParseMsg (idx : Nat) (e : String) : String :=
  "행 " ++ toString idx ++ " 파싱 오류: " ++ e

/--
`CSVImportService._parse_row` (`import_service.py` lines 204-240):
process each bound `(field, column)` entry in mapping order, stopping
at the first failure; build and validate the create payload; any error
is wrapped with the row number.
-/
def parseRow (binding : List (String × Nat)) (row : List String) (idx : Nat) :
    Except String InventoryItemCreate :=
  match binding.foldlM (parseBindingEntry row) {} with
  | .error e => .error (rowParseMsg idx e)
  | .ok r =>
    match finalizeRow r with
    | .error e => .error (rowParseMsg idx e)
    | .ok item => .ok item

/-- What a failed-row record points at: the raw CSV row for parse
errors, or the already-parsed payload for batch-persist errors. -/
inductive ErrSource where
  | raw (row : List String)
  | item (it : InventoryItemCreate)
deriving Repr, DecidableEq

/-- One entry of the error report: row number (`none` encodes the
literal `N/A` used for batch errors), offending data, message
(`import_service.py` lines 82-86 and 97-102). -/
structure ImportErrorRec where
  rowNum : Option Nat
  data : ErrSource
  message : String
deriving Repr, DecidableEq

/-- `ImportResult` (`schemas.py` lines 174-180), without the error-file
path (a file-system side effect). -/
structure ImportResult where
  success_count : Nat
  error_count : Nat
  errors : List ImportErrorRec
deriving Repr, DecidableEq

/--
The per-row loop of `import_from_csv` (`import_service.py` lines
74-86): each row is parsed independently; a success is collected, a
failure is recorded with its row number and raw data and the loop
continues with the next row.  Row numbers start at 2 when a header is
present.
-/
def parseRows (binding : List (String × Nat)) :
    List (List String) → Nat → List InventoryItemCreate × List ImportErrorRec
  | [], _ => ([], [])
  | row :: rest, idx =>
    let tailRes := parseRows binding rest (idx + 1)
    match parseRow binding row idx with
    | .ok item => (item :: tailRes.1, tailRes.2)
    | .error e => (tailRes.1, { rowNum := some idx, data := ErrSource.raw row,
                                message := e } :: tailRes.2)

/-- Message attached when the bulk-create batch fails
(`import_service.py` line 101); the store exception text is abstracted. -/
def bulkFailMsg : String := "데이터베이스 저장 실패"

/--
`CSVImportService.import_from_csv` for a file already read into rows,
with a header row present (`import_service.py` lines 62-118): map the
columns (failing before any row is parsed), parse each row
independently, then submit every successfully parsed row as one
bulk-create batch.  The batch outcome of the underlying store is the
oracle `bulkOk`: on batch failure every parsed row is reclassified as
an error (`N/A` row number, payload as data) and the success count is
zero.
-/
def import_from_csv (headers : List String) (rows : List (List String))
    (bulkOk : Bool) : Except String ImportResult :=
  match mapColumns headers with
  | .error e => .error e
  | .ok binding =>
    let parsed := parseRows binding rows 2
    if parsed.1.isEmpty then
      .ok { success_count := 0, error_count := parsed.2.length, errors := parsed.2 }
    else if bulkOk then
      .ok { success_count := parsed.1.length, error_count := parsed.2.length,
            errors := parsed.2 }
    else
      let errs := parsed.2 ++ parsed.1.map (fun it =>
        { rowNum := none, data := ErrSource.item it, message := bulkFailMsg })
      .ok { success_count := 0, error_count := errs.length, errors := errs }

/-- `True` iff `search` builds at least one filter condition, i.e. the
`filters` list of `repository.py` lines 217-267 is non-empty. -/
def anyFilterActive (q : SearchQuery) : Bool :=
  strFilterActive q.keyword || strFilterActive q.location ||
  strFilterActive q.model_name || strFilterActive q.name ||
  strFilterActive q.vendor || strFilterActive q.size ||
  strFilterActive q.barcode ||
  q.purchase_date_from.isSome || q.purchase_date_to.isSome ||
  q.sale_date_from.isSome || q.sale_date_to.isSome ||
  q.price_min.isSome || q.price_max.isSome

/-- Did the fallible operation succeed? -/
def exceptIsOk {α : Type} : Except String α → Bool
  | .ok _ => true
  | .error _ => false

/-- The keyword disjunction actually built by `search`
(`repository.py` lines 222-227): `name`, `model_name`, `vendor`,
`notes`. -/
def keywordMatchFour (k : String) (it : InventoryItem) : Bool :=
  like k it.name || like k it.model_name || like k it.vendor || likeOpt k it.notes

/-- The keyword disjunction as the spec sentence words it: the four
fields above plus `barcode`. -/
def keywordMatchFiveSpec (k : String) (it : InventoryItem) : Bool :=
  keywordMatchFour k it || likeOpt k it.barcode

/-- The conjunction of every non-keyword filter of a query, each
guarded exactly as in `repository.py` lines 231-267. -/
def nonKeywordFilters (q : SearchQuery) (it : InventoryItem) : Bool :=
  (if strFilterActive q.location then like (q.location.getD "") it.location else true) &&
  (if strFilterActive q.model_name then like (q.model_name.getD "") it.model_name else true) &&
  (if strFilterActive q.name then like (q.name.getD "") it.name else true) &&
  (if strFilterActive q.vendor then like (q.vendor.getD "") it.vendor else true) &&
  (if strFilterActive q.size then likeOpt (q.size.getD "") it.size else true) &&
  (if strFilterActive q.barcode then likeOpt (q.barcode.getD "") it.barcode else true) &&
  (match q.purchase_date_from with | none => true | some lo => lo ≤ it.purchase_date) &&
  (match q.purchase_date_to with | none => true | some hi => it.purchase_date ≤ hi) &&
  (match q.sale_date_from with | none => true | some lo => optDateGe it.sale_date lo) &&
  (match q.sale_date_to with | none => true | some hi => optDateLe it.sale_date hi) &&
  (match q.price_min with | none => true | some lo => lo ≤ it.price) &&
  (match q.price_max with | none => true | some hi => it.price ≤ hi)

/-- Rows paired with their one-based position, starting at `n`
(the `enumerate(rows, start=...)` of `import_service.py` line 77). -/
def enumFromIdx {α : Type} (n : Nat) : List α → List (Nat × α)
  | [] => []
  | x :: xs => (n, x) :: enumFromIdx (n + 1) xs

/-! ## General lemmas -/

theorem opt_eq_none_of_isSome_false {α : Type} {o : Option α}
    (h : o.isSome = false) : o = none := by
  cases o with
  | none => rfl
  | some v => simp at h

theorem matchesQuery_of_inactive (q : SearchQuery)
    (h : anyFilterActive q = false) (it : InventoryItem) :
    matchesQuery q it = true := by
  simp only [anyFilterActive, Bool.or_eq_false_iff] at h
  obtain ⟨⟨⟨⟨⟨⟨⟨⟨⟨⟨⟨⟨h1, h2⟩, h3⟩, h4⟩, h5⟩, h6⟩, h7⟩, h8⟩, h9⟩, h10⟩, h11⟩, h12⟩, h13⟩ := h
  simp [matchesQuery, h1, h2, h3, h4, h5, h6, h7,
        opt_eq_none_of_isSome_false h8, opt_eq_none_of_isSome_false h9,
        opt_eq_none_of_isSome_false h10, opt_eq_none_of_isSome_false h11,
        opt_eq_none_of_isSome_false h12, opt_eq_none_of_isSome_false h13]

/-! ## C2: total count and has_more -/

/--
C2: for every store and search request, `total_count` is the number of
rows matching the filters before pagination (for a request with no
active filters, the unfiltered row count), and `has_more` holds iff
`offset + (number of items returned) < total_count`.
-/
theorem search_total_count_has_more (s : List InventoryItem) (q : SearchQuery) :
    (search s q).total_count = (s.filter (fun it => matchesQuery q it)).length ∧
    ((search s q).has_more = true ↔
      q.offset + (search s q).items.length < (search s q).total_count) ∧
    (anyFilterActive q = false → (search s q).total_count = s.length) := by
  refine ⟨rfl, ?_, ?_⟩
  · simp [search]
  · intro h
    have hall : ∀ it ∈ s, matchesQuery q it = true := fun it _ =>
      matchesQuery_of_inactive q h it
    simp [search, List.filter_eq_self.mpr hall]

/-- An arbitrary concrete item used by witness instantiations. -/
def itemW : InventoryItem :=
  { id := "w1", location := "A-01", purchase_date := 20240115,
    sale_date := none, model_name := "Air Max 270", name := "Nike Air Max",
    size := some "270", vendor := "NikeStore", price := 12000,
    notes := none, barcode := some "8800123456789",
    created_at := 10, updated_at := 10 }

/-- Witness for C2: with no filters, a one-row store reports an
unfiltered `total_count` of 1. -/
theorem search_total_count_has_more_witness :
    (search [itemW] {}).total_count = 1 :=
  (search_total_count_has_more [itemW] {}).2.2 rfl

/-! ## C1: keyword search fields -/

/--
C1 (amended): for a request whose keyword is a non-empty string, the
filter holds exactly when the keyword occurs as a substring of one of
the FOUR fields `name`, `model_name`, `vendor`, `notes` — `barcode` is
not consulted by the keyword disjunction — conjoined with every other
filter of the request.
-/
theorem search_keyword_four_fields (q : SearchQuery) (it : InventoryItem)
    (k : String) (hq : q.keyword = some k) (hk : k ≠ "") :
    matchesQuery q it = (keywordMatchFour k it && nonKeywordFilters q it) := by
  simp [matchesQuery, keywordMatchFour, nonKeywordFilters, strFilterActive,
        hq, hk, Bool.and_assoc]

/-- Witness for C1: the four-field decomposition at a concrete query
and item. -/
theorem search_keyword_four_fields_witness :
    matchesQuery { keyword := some "Air" } itemW =
      (keywordMatchFour "Air" itemW &&
        nonKeywordFilters { keyword := some "Air" } itemW) :=
  search_keyword_four_fields { keyword := some "Air" } itemW "Air" rfl (by decide)

/-- A concrete item whose barcode contains the keyword while none of
`name`, `model_name`, `vendor`, `notes` does. -/
def itemBarcodeOnly : InventoryItem :=
  { id := "c1", location := "L1", purchase_date := 20240101,
    sale_date := none, model_name := "alpha", name := "beta",
    size := none, vendor := "gamma", price := 1000, notes := none,
    barcode := some "7770001112223", created_at := 1, updated_at := 1 }

/--
Counterexample to C1 as stated: the spec sentence includes `barcode`
among the keyword fields, but a keyword occurring only in the barcode
matches the five-field reading while the code's filter rejects the item
and `search` returns it in no result set.
-/
theorem search_keyword_barcode_counterexample :
    keywordMatchFiveSpec "777" itemBarcodeOnly = true ∧
    matchesQuery { keyword := some "777" } itemBarcodeOnly = false ∧
    (search [itemBarcodeOnly] { keyword := some "777" }).items = [] ∧
    (search [itemBarcodeOnly] { keyword := some "777" }).total_count = 0 := by
  refine ⟨by decide, by decide, by decide, by decide⟩

/-! ## C4: the date-order invariant under update -/

/-- A valid item, already sold one day after purchase. -/
def itemSold : InventoryItem :=
  { id := "u1", location := "B-02", purchase_date := 20240101,
    sale_date := some 20240102, model_name := "mod", name := "prod",
    size := none, vendor := "v", price := 500, notes := none,
    barcode := none, created_at := 2, updated_at := 2 }

/-- A partial update moving only the purchase date past the stored sale
date. -/
def updLatePurchase : InventoryItemUpdate := { purchase_date := some 20240103 }

/-- The row the update produces. -/
def itemSoldBroken : InventoryItem :=
  { itemSold with purchase_date := 20240103, updated_at := 9 }

/--
C4 (code bug): the update schema has no cross-field date validator and
the SQLAlchemy `validate_dates` hook only checks assignments to
`sale_date`, so updating `purchase_date` of a sold item to a date after
its `sale_date` passes schema validation, is accepted by
`InventoryRepository.update`, and persists a row with
`sale_date < purchase_date` — contradicting the documented invariant.
-/
theorem update_purchase_date_breaks_invariant :
    dateInvariantOk itemSold = true ∧
    validateItemUpdate updLatePurchase = .ok updLatePurchase ∧
    updateItem [itemSold] "u1" updLatePurchase 9 =
      .ok (some itemSoldBroken, [itemSoldBroken]) ∧
    dateInvariantOk itemSoldBroken = false := by
  refine ⟨by decide, rfl, rfl, by decide⟩

/-! ## C3 and C10: selling an item -/

theorem findItem_id {store : List InventoryItem} {id : String}
    {it : InventoryItem} (h : findItem store id = some it) : it.id = id := by
  have hp := List.find?_some h
  simpa using hp

theorem findItem_replaceItem (store : List InventoryItem) (id : String)
    (new : InventoryItem) (hid : new.id = id)
    (h : (findItem store id).isSome = true) :
    findItem (replaceItem store id new) id = some new := by
  induction store with
  | nil => simp [findItem] at h
  | cons x xs ih =>
    by_cases hx : (x.id == id) = true
    · simp [replaceItem, hx, findItem, List.find?_cons_of_pos, hid]
    · have hx' : (x.id == id) = false := Bool.eq_false_iff.mpr hx
      have h' : (findItem xs id).isSome = true := by
        simpa [findItem, List.find?_cons_of_neg, hx'] using h
      have ihr := ih h'
      simp only [replaceItem, hx', Bool.false_eq_true, if_false]
      simpa [findItem, List.find?_cons_of_neg, hx'] using ihr

/--
C3 (amended): `sell(id, d)` returns the failure value when the id has no
row or the row is already sold; when the row exists, is unsold and `d`
is not earlier than its purchase date, it sets `sale_date := d` and
refreshes `updated_at`; and after a successful sell a second sell
returns failure and leaves `sale_date` equal to the first sale date.
(When `d` precedes the purchase date the call raises a validation error
instead of returning — the subject of C10.)
-/
theorem sell_item_spec (store : List InventoryItem) (id : String) (d now : Nat) :
    (findItem store id = none → sell_item store id d now = .ok (false, store)) ∧
    (∀ it, findItem store id = some it → it.sale_date.isSome = true →
      sell_item store id d now = .ok (false, store)) ∧
    (∀ it, findItem store id = some it → it.sale_date = none →
      it.purchase_date ≤ d →
      sell_item store id d now = .ok (true,
        replaceItem store id { it with sale_date := some d, updated_at := now })) ∧
    (∀ s', sell_item store id d now = .ok (true, s') → ∀ d' now',
      sell_item s' id d' now' = .ok (false, s') ∧
      (findItem s' id).map (fun j => j.sale_date) = some (some d)) := by
  refine ⟨?_, ?_, ?_, ?_⟩
  · intro h; simp [sell_item, h]
  · intro it h hs; simp [sell_item, h, hs]
  · intro it h hs hd; simp [sell_item, h, hs, Nat.not_lt.mpr hd]
  · intro s' hok d' now'
    cases hf : findItem store id with
    | none => simp [sell_item, hf] at hok
    | some it =>
      by_cases hs : it.sale_date.isSome = true
      · simp [sell_item, hf, hs] at hok
      · by_cases hd : d < it.purchase_date
        · simp [sell_item, hf, hs, hd] at hok
        · have hsn : it.sale_date = none := by
            cases hc : it.sale_date with
            | none => rfl
            | some v => rw [hc] at hs; simp at hs
          simp only [sell_item, hf, hsn, Option.isSome_none, Bool.false_eq_true,
            if_false, hd, Except.ok.injEq, Prod.mk.injEq, true_and] at hok
          have hid : InventoryItem.id
              { it with sale_date := some d, updated_at := now } = id := by
            simpa using findItem_id hf
          have hsome : (findItem store id).isSome = true := by simp [hf]
          have hfind := findItem_replaceItem store id
            { it with sale_date := some d, updated_at := now } hid hsome
          rw [← hok]
          constructor
          · simp [sell_item, hfind]
          · simp [hfind]

/-- An unsold concrete item. -/
def itemUnsold : InventoryItem :=
  { id := "s1", location := "C-01", purchase_date := 20240101,
    sale_date := none, model_name := "m3", name := "n3", size := none,
    vendor := "v3", price := 700, notes := none, barcode := none,
    created_at := 3, updated_at := 3 }

/-- Witness for C3: a concrete successful sell followed by a failing
second sell that leaves the first sale date in place. -/
theorem sell_item_spec_witness :
    sell_item [itemUnsold] "s1" 20240105 7 =
      .ok (true, [{ itemUnsold with sale_date := some 20240105, updated_at := 7 }]) ∧
    sell_item [{ itemUnsold with sale_date := some 20240105, updated_at := 7 }]
        "s1" 20240106 8 =
      .ok (false, [{ itemUnsold with sale_date := some 20240105, updated_at := 7 }]) := by
  have h1 := (sell_item_spec [itemUnsold] "s1" 20240105 7).2.2.1
    itemUnsold rfl rfl (by decide)
  exact ⟨h1, ((sell_item_spec [itemUnsold] "s1" 20240105 7).2.2.2 _ h1 20240106 8).1⟩

/-- An unsold concrete item purchased on 2024-01-10. -/
def itemFuture : InventoryItem :=
  { id := "e1", location := "D-01", purchase_date := 20240110,
    sale_date := none, model_name := "m4", name := "n4", size := none,
    vendor := "v4", price := 800, notes := none, barcode := none,
    created_at := 4, updated_at := 4 }

/--
Counterexample to C3 as stated: for an existing unsold item, the claim
requires `sell` to set the sale date (or return the failure value), but
with a sale date earlier than the purchase date the call raises a
validation error and returns nothing.
-/
theorem sell_early_date_counterexample :
    findItem [itemFuture] "e1" = some itemFuture ∧
    itemFuture.sale_date = none ∧
    sell_item [itemFuture] "e1" 20240101 7 = .error dateOrderMsg :=
  ⟨rfl, rfl, rfl⟩

/--
C10: selling an existing, unsold item with a sale date strictly before
its purchase date raises the date-order validation error — it does not
return the plain failure value — and no updated store is produced, so
the sale date stays unset.
-/
theorem sell_validation_error_on_early_date (store : List InventoryItem)
    (id : String) (d now : Nat) (it : InventoryItem)
    (h1 : findItem store id = some it) (h2 : it.sale_date = none)
    (h3 : d < it.purchase_date) :
    sell_item store id d now = .error dateOrderMsg ∧
    ∀ r, sell_item store id d now ≠ .ok r := by
  have he : sell_item store id d now = .error dateOrderMsg := by
    simp [sell_item, h1, h2, h3]
  refine ⟨he, fun r hr => ?_⟩
  rw [he] at hr
  exact Except.noConfusion hr

/-- An unsold concrete item purchased on 2024-02-10. -/
def itemFebruary : InventoryItem :=
  { id := "e2", location := "D-02", purchase_date := 20240210,
    sale_date := none, model_name := "m5", name := "n5", size := none,
    vendor := "v5", price := 900, notes := none, barcode := none,
    created_at := 5, updated_at := 5 }

/-- Witness for C10 at a concrete store and date. -/
theorem sell_validation_error_on_early_date_witness :
    sell_item [itemFebruary] "e2" 20240201 7 = .error dateOrderMsg :=
  (sell_validation_error_on_early_date [itemFebruary] "e2" 20240201 7
    itemFebruary rfl rfl (by decide)).1

/-! ## C9: price range validation -/

/-- A query whose minimum price exceeds its maximum price of zero. -/
def queryZeroMax : SearchQuery :=
  { price_min := some 10000000, price_max := some 0 }

/--
Counterexample to C9 as stated: with `price_max = 0` the model
validator's truthiness test `if self.price_min and self.price_max`
skips the comparison, so a request with `price_min > price_max = 0`
passes validation.
-/
theorem price_range_zero_max_counterexample :
    queryZeroMax.price_min = some 10000000 ∧
    queryZeroMax.price_max = some 0 ∧
    (0 : Int) < 10000000 ∧
    validateSearchQuery queryZeroMax = .ok queryZeroMax :=
  ⟨rfl, rfl, by decide, rfl⟩

/--
C9 (amended): every search request with `price_min > price_max` is
rejected by validation before reaching the store, provided `price_max`
is non-zero (a zero bound is falsy in Python, which disables the
check).
-/
theorem price_range_validation_rejects (q : SearchQuery) (a b : Int)
    (hmin : q.price_min = some a) (hmax : q.price_max = some b)
    (hlt : b < a) (hb : b ≠ 0) :
    exceptIsOk (validateSearchQuery q) = false := by
  unfold validateSearchQuery
  split_ifs with h1 h2 h3 h4 h5 h6 <;> try rfl
  exfalso
  have hb0 : (0 : Int) ≤ b := by simpa [optGeZero, hmax] using h2
  have ha : a ≠ 0 := ne_of_gt (lt_of_le_of_lt hb0 hlt)
  exact h6 (by simp [decTruthy, rangeInvertedInt, hmin, hmax, hlt, hb, ha])

/-- A query with both price bounds non-zero and inverted (the spec's
own example, in cents). -/
def queryInverted : SearchQuery :=
  { price_min := some 10000000, price_max := some 5000000 }

/-- Witness for C9: the request `price_min=100000, price_max=50000`
fails validation. -/
theorem price_range_validation_rejects_witness :
    exceptIsOk (validateSearchQuery queryInverted) = false :=
  price_range_validation_rejects queryInverted 10000000 5000000 rfl rfl
    (by decide) (by decide)

/-! ## C8: barcode upsert -/

theorem map_barcode_replaceFirstBarcode (bs : List BarcodeRecord)
    (b mn nm : String) (now : Nat) :
    (replaceFirstBarcode bs b mn nm now).map (fun r => r.barcode) =
      bs.map (fun r => r.barcode) := by
  induction bs with
  | nil => rfl
  | cons r rs ih =>
    by_cases h : (r.barcode == b) = true
    · simp [replaceFirstBarcode, h]
    · have h' : (r.barcode == b) = false := Bool.eq_false_iff.mpr h
      simp [replaceFirstBarcode, h', ih]

/--
C8: the barcode side index holds at most one record per barcode value —
upserting preserves uniqueness, an upsert of an existing barcode keeps
the row count unchanged (overwrite in place, last write wins) — and
upserting `("123","M1","N1")` then `("123","M2","N2")` leaves a single
record for `"123"` carrying `model_name = "M2"` and `name = "N2"`.
-/
theorem barcode_upsert_unique_lww :
    (∀ bs b mn nm now, uniqueBarcodes bs →
      uniqueBarcodes (create_or_update_barcode bs b mn nm now)) ∧
    (∀ bs b mn nm now r, get_barcode_info bs b = some r →
      (create_or_update_barcode bs b mn nm now).length = bs.length) ∧
    get_barcode_info (create_or_update_barcode
        (create_or_update_barcode [] "123" "M1" "N1" 1) "123" "M2" "N2" 2) "123" =
      some { barcode := "123", model_name := "M2", name := "N2",
             created_at := 1, updated_at := 2 } ∧
    (create_or_update_barcode (create_or_update_barcode [] "123" "M1" "N1" 1)
        "123" "M2" "N2" 2).length = 1 := by
  refine ⟨?_, ?_, rfl, rfl⟩
  · intro bs b mn nm now hu
    unfold create_or_update_barcode
    cases hfind : bs.find? (fun r => r.barcode == b) with
    | some r =>
      simpa [uniqueBarcodes, map_barcode_replaceFirstBarcode] using hu
    | none =>
      have hnot : ∀ r ∈ bs, r.barcode ≠ b := by
        intro r hr
        have := List.find?_eq_none.mp hfind r hr
        simpa using this
      simp only [uniqueBarcodes, List.map_append, List.map_cons, List.map_nil]
      rw [List.nodup_append]
      refine ⟨hu, List.nodup_singleton _, ?_⟩
      intro x hx hmem
      have hxb : x = b := by simpa using hmem
      obtain ⟨r, hr, hrb⟩ := List.mem_map.mp hx
      exact hnot r hr (hrb.trans hxb)
  · intro bs b mn nm now r hget
    have hfind : bs.find? (fun s => s.barcode == b) = some r := hget
    simp only [create_or_update_barcode, hfind]
    have := congrArg List.length (map_barcode_replaceFirstBarcode bs b mn nm now)
    simpa using this

/-- A concrete barcode record. -/
def recNines : BarcodeRecord :=
  { barcode := "999", model_name := "X", name := "Y",
    created_at := 0, updated_at := 0 }

/-- Witness for C8: uniqueness preservation and in-place overwrite at a
concrete one-record store. -/
theorem barcode_upsert_unique_lww_witness :
    uniqueBarcodes (create_or_update_barcode [recNines] "999" "X2" "Y2" 3) ∧
    (create_or_update_barcode [recNines] "999" "X2" "Y2" 3).length = 1 :=
  ⟨barcode_upsert_unique_lww.1 [recNines] "999" "X2" "Y2" 3
      (by simp [uniqueBarcodes]),
   barcode_upsert_unique_lww.2.1 [recNines] "999" "X2" "Y2" 3 recNines rfl⟩

/-! ## C7: column mapping -/

theorem firstIdxMatching_spec (p : String → Bool) :
    ∀ (l : List String) (i : Nat),
      firstIdxMatching p l = some i ↔
        ∃ h, l.get? i = some h ∧ p h = true ∧
          ∀ j, j < i → ∀ h', l.get? j = some h' → p h' = false
  | [], i => by simp [firstIdxMatching]
  | x :: xs, i => by
    by_cases hp : p x = true
    · simp only [firstIdxMatching, hp, if_true]
      constructor
      · intro h
        have hi : i = 0 := (Option.some.injEq _ _).mp h |>.symm ▸ rfl
        have hi' : 0 = i := (Option.some.injEq _ _).mp h
        subst hi'
        exact ⟨x, rfl, hp, fun j hj => absurd hj (Nat.not_lt_zero j)⟩
      · rintro ⟨h, hget, hph, hfirst⟩
        cases i with
        | zero => rfl
        | succ k =>
          exfalso
          have hz := hfirst 0 (Nat.succ_pos k) x rfl
          rw [hp] at hz
          exact Bool.noConfusion hz
    · have hp' : p x = false := Bool.eq_false_iff.mpr hp
      simp only [firstIdxMatching, hp', Bool.false_eq_true, if_false]
      constructor
      · intro h
        rcases Option.map_eq_some'.mp h with ⟨k, hk, hki⟩
        subst hki
        rcases (firstIdxMatching_spec p xs k).mp hk with ⟨hh, hget, hph, hfirst⟩
        refine ⟨hh, by simpa using hget, hph, ?_⟩
        intro j hj h' hget'
        cases j with
        | zero =>
          have hx : h' = x := by simpa [eq_comm] using hget'
          rw [hx]
          exact hp'
        | succ m =>
          exact hfirst m (Nat.lt_of_succ_lt_succ hj) h' (by simpa using hget')
      · rintro ⟨hh, hget, hph, hfirst⟩
        cases i with
        | zero =>
          exfalso
          have hx : hh = x := by simpa [eq_comm] using hget
          rw [hx] at hph
          rw [hph] at hp'
          exact Bool.noConfusion hp'
        | succ k =>
          have hrec : firstIdxMatching p xs = some k :=
            (firstIdxMatching_spec p xs k).mpr
              ⟨hh, by simpa using hget, hph,
               fun j hj h' hg =>
                 hfirst (j + 1) (Nat.succ_lt_succ hj) h' (by simpa using hg)⟩
          simp [hrec]

/--
C7: with a header row present, the column binding associates a
canonical field with a header index exactly when that index is the
first header matching one of the field's aliases (case-insensitively);
when some required canonical field is unbound the mapping fails with a
message listing every unbound required field; and on that failure the
importer returns the mapping error whatever the data rows are — no row
is parsed.
-/
theorem map_columns_spec :
    (∀ (headers aliases : List String) (i : Nat),
      findHeaderIndex headers aliases = some i ↔
        ∃ h, headers.get? i = some h ∧ headerMatches aliases h = true ∧
          ∀ j, j < i → ∀ h', headers.get? j = some h' →
            headerMatches aliases h' = false) ∧
    (∀ headers bnd, mapColumns headers = .ok bnd →
      ∀ f i, (f, i) ∈ bnd ↔
        ∃ al, (f, al) ∈ COLUMN_MAPPING ∧ findHeaderIndex headers al = some i) ∧
    (∀ headers e, mapColumns headers = .error e ↔
      unboundRequired headers ≠ [] ∧ e = missingColumnsMsg (unboundRequired headers)) ∧
    (∀ headers rows bulkOk e, mapColumns headers = .error e →
      import_from_csv headers rows bulkOk = .error e) := by
  refine ⟨fun headers aliases i => firstIdxMatching_spec _ headers i, ?_, ?_, ?_⟩
  · intro headers bnd hok f i
    have hbnd : bnd = columnBinding headers := by
      unfold mapColumns at hok
      by_cases he : (unboundRequired headers).isEmpty = true
      · rw [if_pos he] at hok
        exact ((Except.ok.injEq _ _).mp hok).symm
      · rw [if_neg he] at hok
        exact Except.noConfusion hok
    subst hbnd
    unfold columnBinding
    constructor
    · intro hmem
      rcases List.mem_filterMap.mp hmem with ⟨fa, hfa, hmap⟩
      rcases Option.map_eq_some'.mp hmap with ⟨ix, hix, heq⟩
      have e1 : fa.1 = f := congrArg Prod.fst heq
      have e2 : ix = i := congrArg Prod.snd heq
      refine ⟨fa.2, ?_, ?_⟩
      · rw [← e1]
        simpa using hfa
      · rw [← e2]
        exact hix
    · rintro ⟨al, hal, hidx⟩
      exact List.mem_filterMap.mpr ⟨(f, al), hal, by simp [hidx]⟩
  · intro headers e
    unfold mapColumns
    by_cases he : (unboundRequired headers).isEmpty = true
    · rw [if_pos he]
      have : unboundRequired headers = [] := by simpa [List.isEmpty_iff] using he
      simp [this]
    · rw [if_neg he]
      have hne : unboundRequired headers ≠ [] := by
        intro hc
        rw [hc] at he
        exact he rfl
      simp [hne, eq_comm]
  · intro headers rows bulkOk e hmap
    simp [import_from_csv, hmap]

/-- The headers of the spec's import scenario:
location, purchase date, model, name, vendor, price (in Korean). -/
def csvHeaders : List String := ["위치", "구매일", "모델명", "이름", "구매처", "가격"]

/-- A header list missing the vendor and price columns. -/
def headersMissing : List String := ["위치", "구매일", "모델명", "이름"]

/-- Witness for C7: `가격` binds `price` to column 5 of the scenario
headers, and headers lacking vendor and price make the import fail with
a message listing both, before any data row is read. -/
theorem map_columns_spec_witness :
    ("price", 5) ∈ columnBinding csvHeaders ∧
    import_from_csv headersMissing [["A", "2024-01-01", "m", "n"]] true =
      .error (missingColumnsMsg ["vendor", "price"]) := by
  constructor
  · exact (map_columns_spec.2.1 csvHeaders (columnBinding csvHeaders) rfl
      "price" 5).mpr ⟨["price", "가격", "단가"], by decide, rfl⟩
  · exact map_columns_spec.2.2.2 headersMissing [["A", "2024-01-01", "m", "n"]]
      true (missingColumnsMsg ["vendor", "price"]) rfl

/-! ## C5 and C6: row-level import behavior -/

/-- Scenario rows: two complete rows around one with an empty price. -/
def csvRow1 : List String := ["A-01", "2024-01-15", "M1", "N1", "V1", "1000"]

/-- The scenario's failing row: empty `가격` cell. -/
def csvRow2 : List String := ["A-02", "2024-01-16", "M2", "N2", "V2", ""]

/-- Third scenario row, with a formatted price. -/
def csvRow3 : List String := ["A-03", "2024-01-17", "M3", "N3", "V3", "2,000"]

/--
C5: rows are parsed and validated independently — the outcome of a row
list is the row-by-row outcome (each failing row recorded with its row
number, its raw data and the error message; successes and failures of
disjoint row segments concatenate) — and the 3-row scenario with
headers `위치,구매일,모델명,이름,구매처,가격` and one empty `가격` cell
yields `success_count = 2`, `error_count = 1` and one error entry
carrying the required-field message for `price` at row 3.
-/
theorem import_rows_independent_scenario :
    (∀ (binding : List (String × Nat)) (rows : List (List String)) (n : Nat),
      parseRows binding rows n =
        ((enumFromIdx n rows).filterMap (fun p =>
           match parseRow binding p.2 p.1 with
           | .ok item => some item
           | .error _ => none),
         (enumFromIdx n rows).filterMap (fun p =>
           match parseRow binding p.2 p.1 with
           | .ok _ => none
           | .error e => some { rowNum := some p.1, data := ErrSource.raw p.2,
                                message := e }))) ∧
    (∀ (binding : List (String × Nat)) (xs ys : List (List String)) (n : Nat),
      (parseRows binding (xs ++ ys) n).1 =
        (parseRows binding xs n).1 ++ (parseRows binding ys (n + xs.length)).1 ∧
      (parseRows binding (xs ++ ys) n).2 =
        (parseRows binding xs n).2 ++ (parseRows binding ys (n + xs.length)).2) ∧
    import_from_csv csvHeaders [csvRow1, csvRow2, csvRow3] true =
      .ok { success_count := 2, error_count := 1,
            errors := [{ rowNum := some 3, data := ErrSource.raw csvRow2,
                         message := rowParseMsg 3 (requiredEmptyMsg "price") }] } := by
  refine ⟨?_, ?_, rfl⟩
  · intro binding rows
    induction rows with
    | nil => intro n; rfl
    | cons r rs ih =>
      intro n
      simp only [parseRows, enumFromIdx, List.filterMap_cons, ih (n + 1)]
      cases hp : parseRow binding r n with
      | ok item => simp [hp]
      | error e => simp [hp]
  · intro binding xs ys
    induction xs with
    | nil => intro n; simp [parseRows]
    | cons x xs ih =>
      intro n
      have harith : n + (xs.length + 1) = (n + 1) + xs.length := by omega
      simp only [List.cons_append, parseRows, List.length_cons, harith]
      rcases ih (n + 1) with ⟨ih1, ih2⟩
      cases hp : parseRow binding x n with
      | ok item => simp [hp, ih1, ih2]
      | error e => simp [hp, ih1, ih2]

theorem parseRows_length (binding : List (String × Nat)) :
    ∀ (rows : List (List String)) (n : Nat),
      (parseRows binding rows n).1.length + (parseRows binding rows n).2.length =
        rows.length
  | [], _ => rfl
  | r :: rs, n => by
    have ih := parseRows_length binding rs (n + 1)
    simp only [parseRows, List.length_cons]
    cases hp : parseRow binding r n with
    | ok item => simp only [List.length_cons]; omega
    | error e => simp only [List.length_cons]; omega

/--
C6: when the bulk-create batch fails, every cleanly parsed row is
reclassified as an error (appended to the error list with an `N/A` row
number and the parsed payload as data), the success count is zero, and
the error count covers every row of the file.
-/
theorem import_bulk_failure_reclassifies (headers : List String)
    (rows : List (List String)) (binding : List (String × Nat))
    (hmap : mapColumns headers = .ok binding)
    (hvalid : (parseRows binding rows 2).1 ≠ []) :
    import_from_csv headers rows false =
      .ok { success_count := 0, error_count := rows.length,
            errors := (parseRows binding rows 2).2 ++
              (parseRows binding rows 2).1.map (fun it =>
                { rowNum := none, data := ErrSource.item it,
                  message := bulkFailMsg }) } := by
  have hne : (parseRows binding rows 2).1.isEmpty = false := by
    cases hc : (parseRows binding rows 2).1 with
    | nil => exact absurd hc hvalid
    | cons a l => rfl
  have hlen := parseRows_length binding rows 2
  have hcount : ((parseRows binding rows 2).2 ++
      (parseRows binding rows 2).1.map (fun it =>
        ({ rowNum := none, data := ErrSource.item it,
           message := bulkFailMsg } : ImportErrorRec))).length = rows.length := by
    simp only [List.length_append, List.length_map]
    omega
  simp [import_from_csv, hmap, hne, hcount]

/-- Witness for C6: the scenario file under a failing batch — no
success, three errors. -/
theorem import_bulk_failure_reclassifies_witness :
    import_from_csv csvHeaders [csvRow1, csvRow2, csvRow3] false =
      .ok { success_count := 0, error_count := 3,
            errors := (parseRows (columnBinding csvHeaders)
                [csvRow1, csvRow2, csvRow3] 2).2 ++
              (parseRows (columnBinding csvHeaders)
                [csvRow1, csvRow2, csvRow3] 2).1.map (fun it =>
                { rowNum := none, data := ErrSource.item it,
                  message := bulkFailMsg }) } :=
  import_bulk_failure_reclassifies csvHeaders [csvRow1, csvRow2, csvRow3]
    (columnBinding csvHeaders) rfl (by decide)

end ShoesManager
